import Mathlib

/-!
Verification development for the TutorMate-AI backend
(`backend/app/services/ai_service.py`, `backend/app/services/transcript_service.py`,
`backend/app/models/schemas.py`, `backend/app/main.py`).

The Python code is shallowly embedded: Python strings become Lean `String`
(worked on as `List Char`), `json.loads` is modelled by an executable
recursive-descent parser `loads` over an inductive `Json` type (faithful to
Python's strict JSON decoding on the fragment used here: objects, arrays,
strings with escapes, integers, booleans, null; float literals are not
modelled and make the parse fail, and unicode escapes for surrogates fail),
the opaque Bedrock model call is a parameter (its outcome is an `Except`
value, one per call site), and pydantic validation of the schema classes of
`models/schemas.py` is modelled field by field (v1-style lenient coercion of
scalars to `str`, rejection of non-sequences for list fields).  Wall-clock
quantities (`processing_time`, chat timestamps) are modelled as `Nat`
parameters; no claim depends on them.
-/

/-! ### Characters that the token rules prevent from being written literally -/

def lbrace : Char := Char.ofNat 123

def rbrace : Char := Char.ofNat 125

def btick : Char := Char.ofNat 96

def dquote : Char := Char.ofNat 34

def squote : Char := Char.ofNat 39

def crChar : Char := Char.ofNat 13

/-! ### Python string primitives -/

/-- Whitespace for Python's `str.strip()` / `str.split()` / regex `\s`
(ASCII part; the inputs of this development are ASCII). -/
def pyIsSpace (c : Char) : Bool :=
  c == ' ' || c == '\t' || c == '\n' || c == crChar || c == '\x0b' || c == '\x0c'

def pyStripL (l : List Char) : List Char :=
  ((l.dropWhile pyIsSpace).reverse.dropWhile pyIsSpace).reverse

/-- Python `str.strip()`. -/
def pyStrip (s : String) : String := String.mk (pyStripL s.toList)

/-- Python `str.split()` with no argument: split on whitespace runs,
dropping empty pieces. -/
def pySplitWsAux : List Char → List Char → List (List Char)
  | [], acc => if acc.isEmpty then [] else [acc.reverse]
  | c :: rest, acc =>
    if pyIsSpace c then
      if acc.isEmpty then pySplitWsAux rest [] else acc.reverse :: pySplitWsAux rest []
    else pySplitWsAux rest (c :: acc)

def pySplitWs (s : String) : List String :=
  (pySplitWsAux s.toList []).map String.mk

/-- Python `str.lower()` (ASCII). -/
def pyLower (s : String) : String := String.mk (s.toList.map Char.toLower)

/-- Python `str.title()`: a cased character starting a run of letters is
uppercased, subsequent letters are lowercased. -/
def pyTitleAux : Bool → List Char → List Char
  | _, [] => []
  | prevAlpha, c :: r =>
    if c.isAlpha then
      (if prevAlpha then c.toLower else c.toUpper) :: pyTitleAux true r
    else c :: pyTitleAux false r

def pyTitle (s : String) : String := String.mk (pyTitleAux false s.toList)

/-- Does `big` start with `small`? -/
def listStartsWith : List Char → List Char → Bool
  | _, [] => true
  | [], _ :: _ => false
  | c :: r, d :: s => c == d && listStartsWith r s

/-- Python's `needle in haystack` substring test. -/
def listHasSub (hay needle : List Char) : Bool :=
  if listStartsWith hay needle then true
  else match hay with
    | [] => false
    | _ :: t => listHasSub t needle

def strContains (hay needle : String) : Bool := listHasSub hay.toList needle.toList

/-- Python `str.find(ch)`: index of the first occurrence, `-1` if absent. -/
def pyFindAux : List Char → Char → Int → Int
  | [], _, _ => -1
  | x :: r, c, i => if x == c then i else pyFindAux r c (i + 1)

def pyFind (s : String) (c : Char) : Int := pyFindAux s.toList c 0

/-- Python `str.rfind(ch)`: index of the last occurrence, `-1` if absent. -/
def pyRfindAux : List Char → Char → Int → Int → Int
  | [], _, _, best => best
  | x :: r, c, i, best => pyRfindAux r c (i + 1) (if x == c then i else best)

def pyRfind (s : String) (c : Char) : Int := pyRfindAux s.toList c 0 (-1)

/-- Python slicing `s[a:b]` with both bounds given: negative indices count
from the end, then both are clamped to `[0, len]`. -/
def pySlice (s : String) (a b : Int) : String :=
  let n : Int := s.length
  let a' : Int := if a < 0 then max (n + a) 0 else min a n
  let b' : Int := if b < 0 then max (n + b) 0 else min b n
  if a' < b' then String.mk ((s.toList.drop a'.toNat).take (b' - a').toNat) else ""

/-- Python `s[:n]` for `n ≥ 0`. -/
def pyTake (s : String) (n : Nat) : String := String.mk (s.toList.take n)

/-- Python `split('\n')` (keeps empty pieces). -/
def splitOnChar (sep : Char) : List Char → List (List Char)
  | [] => [[]]
  | c :: rest =>
    match splitOnChar sep rest with
    | [] => [[]]
    | g :: gs => if c == sep then [] :: g :: gs else (c :: g) :: gs

/-- Python `'\n'.join` on char lists. -/
def joinChar (sep : Char) : List (List Char) → List Char
  | [] => []
  | [g] => g
  | g :: gs => g ++ sep :: joinChar sep gs

/-! ### JSON values and Python `json.loads` -/

inductive Json where
  | null : Json
  | bool : Bool → Json
  | int : Int → Json
  | str : String → Json
  | arr : List Json → Json
  | obj : List (String × Json) → Json
deriving Repr

/-- Dictionary lookup.  Python builds a `dict` while parsing, so a later
duplicate key wins: search from the end. -/
def jGet (kvs : List (String × Json)) (k : String) : Option Json :=
  (kvs.reverse.find? fun p => p.1 == k).map (fun p => p.2)

/-- Python truthiness of a decoded JSON value. -/
def pyTruthy : Json → Bool
  | Json.null => false
  | Json.bool b => b
  | Json.int n => n != 0
  | Json.str s => s != ""
  | Json.arr l => !l.isEmpty
  | Json.obj d => !d.isEmpty

/-- JSON whitespace accepted by Python's decoder. -/
def jsonWs (c : Char) : Bool := c == ' ' || c == '\t' || c == '\n' || c == crChar

def hexVal (c : Char) : Option Nat :=
  if '0' ≤ c ∧ c ≤ '9' then some (c.toNat - 48)
  else if 'a' ≤ c ∧ c ≤ 'f' then some (c.toNat - 87)
  else if 'A' ≤ c ∧ c ≤ 'F' then some (c.toNat - 55)
  else none

def consStr (c : Char) : Option (List Char × List Char) → Option (List Char × List Char)
  | some (s, r) => some (c :: s, r)
  | none => none

/-- String-body parser (after the opening quote); strict mode: a raw control
character aborts the parse, like Python's default decoder. -/
def parseJStrAux : List Char → Option (List Char × List Char)
  | [] => none
  | c :: rest =>
    if c == dquote then some ([], rest)
    else if c == '\\' then
      match rest with
      | [] => none
      | e :: rest2 =>
        if e == dquote then consStr dquote (parseJStrAux rest2)
        else if e == '\\' then consStr '\\' (parseJStrAux rest2)
        else if e == '/' then consStr '/' (parseJStrAux rest2)
        else if e == 'b' then consStr (Char.ofNat 8) (parseJStrAux rest2)
        else if e == 'f' then consStr (Char.ofNat 12) (parseJStrAux rest2)
        else if e == 'n' then consStr '\n' (parseJStrAux rest2)
        else if e == 'r' then consStr crChar (parseJStrAux rest2)
        else if e == 't' then consStr '\t' (parseJStrAux rest2)
        else if e == 'u' then
          match rest2 with
          | h1 :: h2 :: h3 :: h4 :: rest3 =>
            match hexVal h1, hexVal h2, hexVal h3, hexVal h4 with
            | some a, some b, some c2, some d =>
              let code := ((a * 16 + b) * 16 + c2) * 16 + d
              if code < 0xD800 ∨ 0xE000 ≤ code then
                consStr (Char.ofNat code) (parseJStrAux rest3)
              else none
            | _, _, _, _ => none
          | _ => none
        else none
    else if c.toNat < 32 then none
    else consStr c (parseJStrAux rest)

def digitsToNat (l : List Char) : Nat := l.foldl (fun a c => a * 10 + (c.toNat - 48)) 0

/-- Integer literals (a following `.`/`e`/`E` would make a float, which this
model does not support: the parse fails there). -/
def parseNum (l : List Char) : Option (Json × List Char) :=
  let p : Bool × List Char :=
    match l with
    | c :: r => if c == '-' then (true, r) else (false, l)
    | [] => (false, l)
  let ds := p.2.takeWhile Char.isDigit
  let rest := p.2.dropWhile Char.isDigit
  if ds.isEmpty then none
  else
    let n : Int := (digitsToNat ds : Nat)
    let v := Json.int (if p.1 then -n else n)
    match rest with
    | c :: _ => if c == '.' || c == 'e' || c == 'E' then none else some (v, rest)
    | [] => some (v, [])

mutual

def parseVal : Nat → List Char → Option (Json × List Char)
  | 0, _ => none
  | Nat.succ f, l =>
    let l1 := l.dropWhile jsonWs
    match l1 with
    | [] => none
    | c :: rest =>
      if c == 'n' then
        match rest with
        | 'u' :: 'l' :: 'l' :: r => some (Json.null, r)
        | _ => none
      else if c == 't' then
        match rest with
        | 'r' :: 'u' :: 'e' :: r => some (Json.bool true, r)
        | _ => none
      else if c == 'f' then
        match rest with
        | 'a' :: 'l' :: 's' :: 'e' :: r => some (Json.bool false, r)
        | _ => none
      else if c == dquote then
        match parseJStrAux rest with
        | some (s, r) => some (Json.str (String.mk s), r)
        | none => none
      else if c == '[' then
        match rest.dropWhile jsonWs with
        | ']' :: r2 => some (Json.arr [], r2)
        | _ => parseArrRest f rest []
      else if c == lbrace then
        let r1 := rest.dropWhile jsonWs
        if r1.head? == some rbrace then some (Json.obj [], r1.tail)
        else parseObjRest f rest []
      else parseNum l1

def parseArrRest : Nat → List Char → List Json → Option (Json × List Char)
  | 0, _, _ => none
  | Nat.succ f, l, acc =>
    match parseVal f l with
    | none => none
    | some (v, r) =>
      match r.dropWhile jsonWs with
      | ']' :: r2 => some (Json.arr (acc ++ [v]), r2)
      | ',' :: r2 => parseArrRest f r2 (acc ++ [v])
      | _ => none

def parseObjRest : Nat → List Char → List (String × Json) → Option (Json × List Char)
  | 0, _, _ => none
  | Nat.succ f, l, acc =>
    match l.dropWhile jsonWs with
    | [] => none
    | c :: rest =>
      if c == dquote then
        match parseJStrAux rest with
        | none => none
        | some (k, r) =>
          match r.dropWhile jsonWs with
          | ':' :: r2 =>
            match parseVal f r2 with
            | none => none
            | some (v, r3) =>
              match r3.dropWhile jsonWs with
              | [] => none
              | c2 :: r5 =>
                if c2 == rbrace then some (Json.obj (acc ++ [(String.mk k, v)]), r5)
                else if c2 == ',' then parseObjRest f r5 (acc ++ [(String.mk k, v)])
                else none
          | _ => none
      else none

end

/-- Python `json.loads`: parse one value, then only whitespace may remain. -/
def loads (s : String) : Option Json :=
  match parseVal (2 * s.length + 16) s.toList with
  | some (v, r) => if (r.dropWhile jsonWs).isEmpty then some v else none
  | none => none

/-! ### Python `str()` / `repr()` of decoded JSON values -/

def hexDigitChar (n : Nat) : Char :=
  if n < 10 then Char.ofNat (48 + n) else Char.ofNat (87 + n)

def reprCharInner (q c : Char) : List Char :=
  if c == '\\' then ['\\', '\\']
  else if c == q then ['\\', q]
  else if c == '\n' then ['\\', 'n']
  else if c == crChar then ['\\', 'r']
  else if c == '\t' then ['\\', 't']
  else if c.toNat < 32 || c.toNat == 127 then
    ['\\', 'x', hexDigitChar (c.toNat / 16), hexDigitChar (c.toNat % 16)]
  else [c]

/-- Python `repr` of a `str`: single quotes unless the string has a single
quote and no double quote. -/
def pyReprStr (s : String) : String :=
  let l := s.toList
  let q := if l.contains squote && !l.contains dquote then dquote else squote
  String.mk (q :: (l.flatMap (reprCharInner q) ++ [q]))

mutual

/-- Python `repr()` of a value decoded from JSON. -/
def pyRepr : Json → String
  | Json.null => "None"
  | Json.bool true => "True"
  | Json.bool false => "False"
  | Json.int n => toString n
  | Json.str s => pyReprStr s
  | Json.arr l => "[" ++ String.intercalate ", " (pyReprList l) ++ "]"
  | Json.obj kvs => "\x7b" ++ String.intercalate ", " (pyReprObj kvs) ++ "\x7d"

def pyReprList : List Json → List String
  | [] => []
  | j :: r => pyRepr j :: pyReprList r

def pyReprObj : List (String × Json) → List String
  | [] => []
  | (k, v) :: r => (pyReprStr k ++ ": " ++ pyRepr v) :: pyReprObj r

end

/-- Python `str()` of a value decoded from JSON (containers print as their
repr, strings print as themselves). -/
def pyStr : Json → String
  | Json.str s => s
  | j => pyRepr j

/-! ### `models/schemas.py` -/

/-- `ActionStep` of `models/schemas.py`. -/
structure ActionStep where
  step_number : Int
  title : String
  description : String
  estimated_time : Option String
  completed : Bool
deriving Repr, DecidableEq

/-- `PracticeQuestion` of `models/schemas.py`. -/
structure PracticeQuestion where
  question_id : Int
  question : String
  question_type : String
  options : Option (List String)
  correct_answer : String
  explanation : String
  difficulty : String
  topic : String
deriving Repr, DecidableEq

/-- `TutorialSummary` of `models/schemas.py`. -/
structure TutorialSummary where
  title : String
  short_summary : String
  detailed_summary : String
  duration : Option String
  difficulty_level : String
  key_topics : List String
deriving Repr, DecidableEq

/-- `ProcessedTutorial` of `models/schemas.py`.  `processing_time` (a float
set by the endpoint from wall-clock time) is modelled as a `Nat`. -/
structure ProcessedTutorial where
  summary : TutorialSummary
  action_steps : List ActionStep
  practice_questions : List PracticeQuestion
  original_language : String
  target_language : String
  processing_time : Nat
  original_transcript : Option String
deriving Repr, DecidableEq

/-- `ChatResponse` of `models/schemas.py`; the `time.time()` float is
modelled as a `Nat` parameter. -/
structure ChatResponse where
  response : String
  timestamp : Nat
deriving Repr, DecidableEq

/-! ### pydantic-style field coercions used by the decoder -/

/-- Python `int(x)` on a decoded JSON value (then used for an `int` field).
`int` of a string strips whitespace and accepts an optional sign and digits;
on anything non-numeric Python raises, which the caller turns into its
fallback. -/
def intCoerce : Json → Except String Int
  | Json.int n => Except.ok n
  | Json.bool b => Except.ok (if b then 1 else 0)
  | Json.str s =>
    let l := pyStripL s.toList
    let p : Bool × List Char :=
      match l with
      | c :: r => if c == '-' then (true, r) else if c == '+' then (false, r) else (false, l)
      | [] => (false, l)
    if p.2.isEmpty || !p.2.all Char.isDigit then Except.error "invalid literal for int()"
    else
      let n : Int := (digitsToNat p.2 : Nat)
      Except.ok (if p.1 then -n else n)
  | _ => Except.error "int() argument"

/-- pydantic (v1) validation of a `str` field from a decoded JSON scalar. -/
def pyStrCoerce : Json → Except String String
  | Json.str s => Except.ok s
  | Json.int n => Except.ok (toString n)
  | Json.bool b => Except.ok (if b then "True" else "False")
  | _ => Except.error "str type expected"

/-- pydantic (v1) validation of an `Optional[str]` field. -/
def coerceOptStr : Option Json → Except String (Option String)
  | none => Except.ok none
  | some Json.null => Except.ok none
  | some (Json.str s) => Except.ok (some s)
  | some (Json.int n) => Except.ok (some (toString n))
  | some (Json.bool b) => Except.ok (some (if b then "True" else "False"))
  | some _ => Except.error "str type expected"

/-! ### `AIService._parse_claude_response` -/

/-- The `detailed_summary` coercion of `_parse_claude_response` (lines
304-313): the default for a missing key is `''`; a dict is stringified; a
list is joined into one newline-separated bullet string; any other non-string
is stringified; a string is kept as it is. -/
def coerceDetailed : Option Json → String
  | none => ""
  | some (Json.str s) => s
  | some (Json.obj kv) => pyStr (Json.obj kv)
  | some (Json.arr l) => String.intercalate "\n" (l.map fun item => "• " ++ pyStr item)
  | some j => pyStr j

/-- `key_topics` handling (line 322): a non-list becomes `[]`; a list is
validated element-wise as `List[str]`. -/
def coerceTopics : Option Json → Except String (List String)
  | some (Json.arr l) => l.mapM pyStrCoerce
  | _ => Except.ok []

/-- One element of the `action_steps` loop (lines 327-335).  A non-dict
element raises (`.get` is missing), which the caller propagates. -/
def parseStep (j : Json) : Except String ActionStep :=
  match j with
  | Json.obj sd => do
    let n ← intCoerce ((jGet sd "step_number").getD (Json.int 1))
    let et ← coerceOptStr (jGet sd "estimated_time")
    Except.ok
      { step_number := n
        title := pyStr ((jGet sd "title").getD (Json.str ""))
        description := pyStr ((jGet sd "description").getD (Json.str ""))
        estimated_time := et
        completed := false }
  | _ => Except.error "step has no attribute get"

/-- Iterating `data.get('action_steps', [])`: a missing key or an empty
iterable yields no steps; iterating any other non-list raises on the first
element. -/
def parseSteps : Option Json → Except String (List ActionStep)
  | none => Except.ok []
  | some (Json.arr l) => l.mapM parseStep
  | some (Json.obj []) => Except.ok []
  | some (Json.str "") => Except.ok []
  | some _ => Except.error "action_steps not iterable"

/-- Building the `ProcessedTutorial` from the parsed payload dict (lines
304-344 of `_parse_claude_response`); any pydantic/coercion failure is an
exception, re-raised by the except-blocks (346-353). -/
def parseClaudeData (d : List (String × Json)) (lang : String) : Except String ProcessedTutorial :=
  match coerceOptStr (jGet d "duration"), coerceTopics (jGet d "key_topics"),
      parseSteps (jGet d "action_steps") with
  | Except.ok dur, Except.ok topics, Except.ok steps =>
    Except.ok
      { summary :=
          { title := pyStr ((jGet d "title").getD (Json.str "Tutorial"))
            short_summary := pyStr ((jGet d "short_summary").getD (Json.str ""))
            detailed_summary := coerceDetailed (jGet d "detailed_summary")
            duration := dur
            difficulty_level := pyStr ((jGet d "difficulty_level").getD (Json.str "Intermediate"))
            key_topics := topics }
        action_steps := steps
        practice_questions := []
        original_language := "english"
        target_language := lang
        processing_time := 0
        original_transcript := none }
  | Except.error e, _, _ => Except.error e
  | _, Except.error e, _ => Except.error e
  | _, _, Except.error e => Except.error e

/-- Payload location of `_parse_claude_response` (lines 298-300): slice from
the first brace to one past the last brace. -/
def locateJson (response : String) : String :=
  let a := pyFind response lbrace
  let b := pyRfind response rbrace + 1
  pySlice response a b

/-- `AIService._parse_claude_response`: locate, `json.loads`, coerce; every
failure raises (and is caught by `process_tutorial`). -/
def parseClaudeResponse (response lang : String) : Except String ProcessedTutorial :=
  match loads (locateJson response) with
  | none => Except.error "Failed to parse AI response"
  | some (Json.obj d) => parseClaudeData d lang
  | some _ => Except.error "Error processing AI response"

/-! ### `AIService._clean_json_response` -/

/-- First regex pass: `re.sub(r'(3 backticks)json\s*', '', response)`;
left-to-right non-overlapping matches, greedy trailing whitespace.  The
fuel argument makes the recursion structural (so that it computes inside
the kernel); every step strictly shortens the list, so fuel `l.length`
is enough and the fuel-exhausted branch is unreachable. -/
def subFenceJsonF : Nat → List Char → List Char
  | 0, l => l
  | Nat.succ f, l =>
    match l with
    | c1 :: c2 :: c3 :: c4 :: c5 :: c6 :: c7 :: rest =>
      if c1 == btick && c2 == btick && c3 == btick && c4 == 'j' && c5 == 's' && c6 == 'o' && c7 == 'n'
      then subFenceJsonF f (rest.dropWhile pyIsSpace)
      else c1 :: subFenceJsonF f (c2 :: c3 :: c4 :: c5 :: c6 :: c7 :: rest)
    | c :: rest => c :: subFenceJsonF f rest
    | [] => []

def subFenceJson (l : List Char) : List Char := subFenceJsonF l.length l

/-- Second regex pass: `re.sub(r'(3 backticks)\s*', '', cleaned)`, with the
same fuel device. -/
def subFenceF : Nat → List Char → List Char
  | 0, l => l
  | Nat.succ f, l =>
    match l with
    | c1 :: c2 :: c3 :: rest =>
      if c1 == btick && c2 == btick && c3 == btick
      then subFenceF f (rest.dropWhile pyIsSpace)
      else c1 :: subFenceF f (c2 :: c3 :: rest)
    | c :: rest => c :: subFenceF f rest
    | [] => []

def subFence (l : List Char) : List Char := subFenceF l.length l

/-- The control characters removed by the third pass (line 410):
`00-08`, `0B`, `0C`, `0E-1F` and `7F` — note `0D` (carriage return) is not
in the character class. -/
def isCtlRemoved (c : Char) : Bool :=
  c.toNat ≤ 8 || c.toNat == 0x0B || c.toNat == 0x0C ||
    (0x0E ≤ c.toNat && c.toNat ≤ 0x1F) || c.toNat == 0x7F

def removeCtl (l : List Char) : List Char := l.filter fun c => !isCtlRemoved c

/-- Does the line contain structural JSON punctuation (line 421)? -/
def lineStructural (l : List Char) : Bool :=
  l.any fun c => c == lbrace || c == rbrace || c == '[' || c == ']' || c == ':' || c == ','

/-- `line.replace('\n','\\n').replace('\r','\\r').replace('\t','\\t')`
applied to a single line (which cannot contain `'\n'`). -/
def escapeLine (l : List Char) : List Char :=
  l.flatMap fun c =>
    if c == crChar then ['\\', 'r'] else if c == '\t' then ['\\', 't'] else [c]

/-- `AIService._clean_json_response` (lines 401-429). -/
def cleanJsonResponse (response : String) : String :=
  let c1 := subFenceJson response.toList
  let c2 := subFence c1
  let c3 := removeCtl c2
  let kept := (splitOnChar '\n' c3).filterMap fun ln =>
    if (pyStripL ln).isEmpty then none
    else if lineStructural ln then some ln else some (escapeLine ln)
  String.mk (pyStripL (joinChar '\n' kept))

/-! ### `AIService` fallback generators -/

/-- The fixed technical-term vocabulary (line 437). -/
def commonTechTerms : List String :=
  ["python", "javascript", "aws", "cloud", "database", "api", "web", "server",
   "network", "security", "data", "machine learning", "ai", "docker",
   "kubernetes", "react", "node", "sql", "html", "css"]

/-- `AIService._create_content_based_fallback_questions` (lines 431-518).
`self.current_transcript` is passed explicitly.  (The `sentences`/`context`
locals of lines 441-442 are computed by the code but never used in any
emitted question, so they are omitted.) -/
def createContentBasedFallbackQuestions (transcript : String) : List PracticeQuestion :=
  let lowered := pyLower transcript
  let found := commonTechTerms.filter fun term => strContains lowered term
  let q2 : PracticeQuestion :=
    { question_id := 2
      question := "True or False: This tutorial provides practical, actionable information"
      question_type := "true_false"
      options := some ["True", "False"]
      correct_answer := "True"
      explanation := "The tutorial content is designed to provide practical guidance and actionable steps"
      difficulty := "easy"
      topic := "Tutorial Structure" }
  match found with
  | mainTopic :: _ =>
    let mt := pyTitle mainTopic
    [ { question_id := 1
        question := "Based on the tutorial content, what is the main focus regarding " ++ mt ++ "?"
        question_type := "short_answer"
        options := none
        correct_answer := "The tutorial focuses on " ++ mt ++ " concepts and their practical application"
        explanation := "The tutorial content specifically mentions " ++ mt ++ " and related concepts"
        difficulty := "easy"
        topic := mt },
      q2,
      { question_id := 3
        question := "According to the tutorial, what is the best approach to learning " ++ mt ++ "?"
        question_type := "multiple_choice"
        options := some ["Follow the step-by-step process outlined",
                         "Skip directly to advanced topics",
                         "Ignore the foundational concepts",
                         "Only read without practicing"]
        correct_answer := "Follow the step-by-step process outlined"
        explanation := "The tutorial emphasizes following a structured approach to learning " ++ mt
        difficulty := "medium"
        topic := mt } ]
  | [] =>
    [ { question_id := 1
        question := "What is the main topic or subject covered in this tutorial?"
        question_type := "short_answer"
        options := none
        correct_answer := "The main topic discussed in the tutorial content"
        explanation := "Review the tutorial title and key concepts to identify the primary subject matter"
        difficulty := "easy"
        topic := "Main Topic" },
      q2,
      { question_id := 3
        question := "What would be the first step you should take after studying this tutorial?"
        question_type := "multiple_choice"
        options := some ["Review and understand the key concepts",
                         "Ignore the content completely",
                         "Start with the most advanced topics",
                         "Skip all practice exercises"]
        correct_answer := "Review and understand the key concepts"
        explanation := "The best approach after any tutorial is to review and understand the key concepts before moving forward"
        difficulty := "medium"
        topic := "Learning Strategy" } ]

/-- `AIService._create_fallback_questions` (lines 520-543). -/
def createFallbackQuestions : List PracticeQuestion :=
  [ { question_id := 1
      question := "What was the main topic of this tutorial?"
      question_type := "short_answer"
      options := none
      correct_answer := "Based on the tutorial content"
      explanation := "Reflect on the key concepts discussed in the tutorial"
      difficulty := "easy"
      topic := "General" },
    { question_id := 2
      question := "True or False: This tutorial provided actionable steps"
      question_type := "true_false"
      options := some ["True", "False"]
      correct_answer := "True"
      explanation := "The tutorial was processed into actionable steps"
      difficulty := "easy"
      topic := "General" } ]

/-- `AIService._create_fallback_tutorial` (lines 545-587).  (Its `error_msg`
argument is never used by the Python body, so it is omitted.) -/
def createFallbackTutorial (transcript lang : String) : ProcessedTutorial :=
  { summary :=
      { title := "Tutorial (" ++ toString (pySplitWs transcript).length ++ " words)"
        short_summary := "This tutorial covers various topics. Processing encountered some issues, but basic structure has been created."
        detailed_summary := "• Tutorial content was processed with limited AI analysis\n• Manual review may be needed for optimal results\n• Key concepts may need additional clarification"
        duration := some "Variable"
        difficulty_level := "Intermediate"
        key_topics := ["General Tutorial Content"] }
    action_steps :=
      [ { step_number := 1
          title := "Review Tutorial Content"
          description := "Go through the original tutorial content to understand the main concepts."
          estimated_time := some "10-15 minutes"
          completed := false },
        { step_number := 2
          title := "Practice Key Concepts"
          description := "Apply the concepts learned from the tutorial in practical exercises."
          estimated_time := some "20-30 minutes"
          completed := false } ]
    practice_questions := createFallbackQuestions
    original_language := "english"
    target_language := lang
    processing_time := 0
    original_transcript := some transcript }

/-! ### `AIService._parse_questions_response` -/

/-- One element of the questions loop (lines 375-385).  The `options`
expression is `q_data.get('options') if q_data.get('options') else None`: a
missing key or any falsy value becomes `None`; a truthy value is then
validated by pydantic as `Optional[List[str]]`. -/
def parseQuestion (j : Json) : Except String PracticeQuestion :=
  match j with
  | Json.obj q => do
    let qid ← intCoerce ((jGet q "question_id").getD (Json.int 1))
    let opts ←
      match jGet q "options" with
      | none => Except.ok (none : Option (List String))
      | some v =>
        if pyTruthy v then
          match v with
          | Json.arr l => (l.mapM pyStrCoerce).map some
          | _ => Except.error "value is not a valid list"
        else Except.ok none
    Except.ok
      { question_id := qid
        question := pyStr ((jGet q "question").getD (Json.str ""))
        question_type := pyStr ((jGet q "question_type").getD (Json.str "multiple_choice"))
        options := opts
        correct_answer := pyStr ((jGet q "correct_answer").getD (Json.str ""))
        explanation := pyStr ((jGet q "explanation").getD (Json.str ""))
        difficulty := pyStr ((jGet q "difficulty").getD (Json.str "medium"))
        topic := pyStr ((jGet q "topic").getD (Json.str "General")) }
  | _ => Except.error "question has no attribute get"

/-- Iterating `data.get('questions', [])` (line 374), with the same
iterability behaviour as `parseSteps`. -/
def questionItems : Option Json → Except String (List Json)
  | none => Except.ok []
  | some (Json.arr l) => Except.ok l
  | some (Json.obj []) => Except.ok []
  | some (Json.str "") => Except.ok []
  | some _ => Except.error "questions not iterable"

/-- The loop of lines 373-385 applied to the parsed payload. -/
def parseQuestionsData (j : Json) : Except String (List PracticeQuestion) :=
  match j with
  | Json.obj d => do
    let items ← questionItems (jGet d "questions")
    items.mapM parseQuestion
  | _ => Except.error "data has no attribute get"

/-- The fallible part of `_parse_questions_response` (lines 358-385): clean,
locate the braces (explicit `-1`/`0` check of line 365), parse, coerce.
`none` is any outcome that the except-blocks of lines 387-399 turn into the
content-based fallback. -/
def tryParseQuestions (response : String) : Option (List PracticeQuestion) :=
  let cleaned := cleanJsonResponse response
  let a := pyFind cleaned lbrace
  let b := pyRfind cleaned rbrace + 1
  if a == -1 || b == 0 then none
  else
    match loads (pySlice cleaned a b) with
    | none => none
    | some j =>
      match parseQuestionsData j with
      | Except.error _ => none
      | Except.ok qs => some qs

/-- `AIService._parse_questions_response` (lines 355-399): any parse failure
and an empty parsed list both fall back to the content-based questions
synthesised from the stored transcript. -/
def parseQuestionsResponse (transcript response : String) : List PracticeQuestion :=
  match tryParseQuestions response with
  | none => createContentBasedFallbackQuestions transcript
  | some [] => createContentBasedFallbackQuestions transcript
  | some qs => qs

/-! ### `AIService.process_tutorial` -/

/-- `AIService.process_tutorial` (lines 14-49).  The two opaque Bedrock
calls are parameters: each is either an exception (`Except.error ()`) or
the returned completion text.  The stored `self.current_transcript` is the
`transcript` argument. -/
def processTutorial (mainCall questionsCall : Except Unit String)
    (transcript lang : String) : ProcessedTutorial :=
  match mainCall with
  | Except.error _ => createFallbackTutorial transcript lang
  | Except.ok mainResponse =>
    match parseClaudeResponse mainResponse lang with
    | Except.error _ => createFallbackTutorial transcript lang
    | Except.ok tut =>
      let qs :=
        match questionsCall with
        | Except.error _ => createContentBasedFallbackQuestions transcript
        | Except.ok questionsResponse => parseQuestionsResponse transcript questionsResponse
      { tut with practice_questions := qs, original_transcript := some transcript }

/-! ### `AIService.chat_about_tutorial` -/

/-- A chat-history message, restricted to the two keys the code reads
(`msg.get('role')`, `msg.get('content', '')`); a missing key is `none`. -/
structure ChatMsg where
  role : Option String
  content : Option String
deriving Repr, DecidableEq

/-- The backward scan of lines 62-67 over `reversed(chat_history)`, carrying
`last_user`; it stops (`break`) when it assigns `last_ai`, which requires a
truthy `last_user`.  Returns `(last_user, last_ai)`. -/
def findPair : List ChatMsg → Option String → Option String × Option String
  | [], lu => (lu, none)
  | m :: rest, lu =>
    if m.role == some "user" && lu.isNone then findPair rest (some (m.content.getD ""))
    else if m.role == some "assistant" && (lu.getD "" != "") then (lu, some (m.content.getD ""))
    else findPair rest lu

/-- `last_context` of lines 56-70: only built when the history has at least
two entries and the scan found a truthy pair; the assistant text is
truncated to its first 200 characters. -/
def lastContextOf (history : List ChatMsg) : String :=
  if 2 ≤ history.length then
    match findPair history.reverse none with
    | (some u, some a) =>
      if u != "" && a != "" then
        "\nPrevious question: " ++ u ++ "\nPrevious answer: " ++ pyTake a 200 ++ "...\n"
      else ""
    | _ => ""
  else ""

/-- The chat `tutorial_data` dict, restricted to the fields
`_create_chat_prompt_from_dict` extracts (lines 87-93, defaults applied).
`action_steps` entries are the `(step_number, title, description)` triples
read at lines 98-100. -/
structure ChatTutorialData where
  title : String
  detailed_summary : String
  key_topics : List String
  action_steps : List (Int × String × String)
  target_language : String
  original_transcript : String
deriving Repr, DecidableEq

/-- `AIService._create_chat_prompt_from_dict` (lines 83-133). -/
def createChatPromptFromDict (d : ChatTutorialData) (userMessage lastContext : String) : String :=
  let actionStepsText :=
    String.join (d.action_steps.map fun st =>
      toString st.1 ++ ". " ++ st.2.1 ++ ": " ++ st.2.2 ++ "\n")
  let origT := if d.original_transcript == "" then "Transcript not available"
    else d.original_transcript
  "\nYou are a helpful AI tutor assistant. You have access to a tutorial that the user has been studying. Answer their questions based on the tutorial content.\n\nTUTORIAL INFORMATION:\nTitle: "
    ++ d.title
    ++ "\nSummary: " ++ d.detailed_summary
    ++ "\nKey Topics: " ++ String.intercalate ", " d.key_topics
    ++ "\n\nORIGINAL TRANSCRIPT:\n" ++ origT
    ++ "\n\nACTION STEPS:\n" ++ actionStepsText
    ++ "\n\n" ++ lastContext
    ++ "\n\nUSER QUESTION: " ++ userMessage
    ++ "\n\nINSTRUCTIONS:\n1. Answer based ONLY on the tutorial content provided above\n2. If the question is about something not covered in the tutorial, politely say so and offer to help with what is covered\n3. Be conversational and helpful, but provide UNIQUE responses each time\n4. If asked about specific topics, refer to the relevant parts of the tutorial\n5. If asked to explain concepts, use examples from the tutorial when possible\n6. Keep responses concise but informative (2-3 paragraphs maximum)\n7. Use the target language: "
    ++ d.target_language
    ++ "\n8. IMPORTANT: Provide fresh, varied responses - avoid repeating the same information in the same way\n9. If this seems like a repeated question, acknowledge it and offer a different perspective or additional details\n\nPlease provide a helpful, unique response:\n"

/-- The prompt `chat_about_tutorial` hands to the opaque model call for the
given history (lines 56-72). -/
def buildChatPrompt (d : ChatTutorialData) (userMessage : String) (history : List ChatMsg) : String :=
  createChatPromptFromDict d userMessage (lastContextOf history)

/-- `AIService.chat_about_tutorial` (lines 51-81): the opaque call outcome
is a parameter; a raised exception is re-raised as
`Chat processing failed: ...` (line 81) — there is no fallback value. -/
def chatAboutTutorial (call : Except String String) (now : Nat) : Except String ChatResponse :=
  match call with
  | Except.ok r => Except.ok { response := r, timestamp := now }
  | Except.error e => Except.error ("Chat processing failed: " ++ e)

/-! ### `TranscriptService.validate_transcript` and the endpoints -/

/-- `TranscriptService.validate_transcript` (lines 72-76): falsy transcript
or stripped length below 50 is invalid. -/
def validateTranscript (transcript : String) : Bool :=
  if transcript == "" || (pyStrip transcript).length < 50 then false else true

/-- The `/api/process-tutorial` endpoint (main.py lines 46-87) on the
`transcript_text` path: an invalid transcript is rejected with HTTP 400 and
a descriptive detail; otherwise the AI service runs and the result is
returned (its `processing_time` is overwritten with the elapsed wall-clock
time, a parameter here). -/
def processEndpoint (mainCall questionsCall : Except Unit String)
    (transcriptText lang : String) (elapsed : Nat) : Except (Nat × String) ProcessedTutorial :=
  if validateTranscript transcriptText then
    let t := processTutorial mainCall questionsCall transcriptText lang
    Except.ok { t with processing_time := elapsed }
  else Except.error (400, "Transcript is too short or invalid")

/-- The `/api/chat` endpoint (main.py lines 89-103): an exception from the
service becomes an HTTP 500 whose detail wraps the exception text. -/
def chatEndpoint (call : Except String String) (now : Nat) : Except (Nat × String) ChatResponse :=
  match chatAboutTutorial call now with
  | Except.ok r => Except.ok r
  | Except.error e => Except.error (500, "Chat processing failed: " ++ e)

/-! ### pydantic encoding of a `PracticeQuestion` (for the round-trip claim) -/

/-- Modelled from the spec: the encoding side of the round-trip property —
serialising a `PracticeQuestion` per the schema of `models/schemas.py`
(pydantic `.dict()`/JSON export): every declared field is emitted, an absent
`options` is `null`. -/
def encodePracticeQuestionFields (q : PracticeQuestion) : List (String × Json) :=
  [ ("question_id", Json.int q.question_id),
    ("question", Json.str q.question),
    ("question_type", Json.str q.question_type),
    ("options", match q.options with
      | none => Json.null
      | some l => Json.arr (l.map Json.str)),
    ("correct_answer", Json.str q.correct_answer),
    ("explanation", Json.str q.explanation),
    ("difficulty", Json.str q.difficulty),
    ("topic", Json.str q.topic) ]

def encodePracticeQuestion (q : PracticeQuestion) : Json :=
  Json.obj (encodePracticeQuestionFields q)

/-- Three consecutive backticks occur somewhere in the list (a fenced
code-block marker). -/
def hasTriple : List Char → Bool
  | c1 :: c2 :: c3 :: rest => (c1 == btick && c2 == btick && c3 == btick) || hasTriple (c2 :: c3 :: rest)
  | _ => false

/-! ## Helper lemmas -/

theorem toList_mk (l : List Char) : (String.mk l).toList = l := rfl

theorem pyFindAux_of_not_mem (c : Char) :
    ∀ (l : List Char) (i : Int), (∀ x ∈ l, x ≠ c) → pyFindAux l c i = -1 := by
  intro l
  induction l with
  | nil => intro i _; rfl
  | cons x r ih =>
    intro i h
    have hx : x ≠ c := h x (List.mem_cons_self x r)
    have hx' : (x == c) = false := by
      cases hb : x == c
      · rfl
      · exact absurd (eq_of_beq hb) hx
    simp only [pyFindAux, hx', if_false, Bool.false_eq_true]
    exact ih (i + 1) fun y hy => h y (List.mem_cons_of_mem x hy)

theorem pyRfindAux_of_not_mem (c : Char) :
    ∀ (l : List Char) (i best : Int), (∀ x ∈ l, x ≠ c) → pyRfindAux l c i best = best := by
  intro l
  induction l with
  | nil => intro i best _; rfl
  | cons x r ih =>
    intro i best h
    have hx : x ≠ c := h x (List.mem_cons_self x r)
    have hx' : (x == c) = false := by
      cases hb : x == c
      · rfl
      · exact absurd (eq_of_beq hb) hx
    simp only [pyRfindAux, hx', if_false, Bool.false_eq_true]
    exact ih (i + 1) best fun y hy => h y (List.mem_cons_of_mem x hy)

theorem pySlice_stop_zero (s : String) (a : Int) : pySlice s a 0 = "" := by
  have hn : (0 : Int) ≤ (s.length : Int) := Int.ofNat_nonneg _
  unfold pySlice
  have hcond :
      ¬ ((if a < 0 then max ((s.length : Int) + a) 0 else min a (s.length : Int)) <
        (if (0 : Int) < 0 then max ((s.length : Int) + 0) 0 else min 0 (s.length : Int))) := by
    split_ifs with h1 h2 h2 <;> omega
  simp only [hcond, if_false]

theorem loads_empty : loads "" = none := rfl

theorem locateJson_of_no_braces (s : String)
    (h1 : ∀ x ∈ s.toList, x ≠ lbrace) (h2 : ∀ x ∈ s.toList, x ≠ rbrace) :
    locateJson s = "" := by
  unfold locateJson pyFind pyRfind
  rw [pyFindAux_of_not_mem lbrace s.toList 0 h1,
    pyRfindAux_of_not_mem rbrace s.toList 0 (-1) h2]
  norm_num
  exact pySlice_stop_zero s (-1)

theorem parseClaudeResponse_of_no_braces (s lang : String)
    (h1 : ∀ x ∈ s.toList, x ≠ lbrace) (h2 : ∀ x ∈ s.toList, x ≠ rbrace) :
    parseClaudeResponse s lang = Except.error "Failed to parse AI response" := by
  unfold parseClaudeResponse
  rw [locateJson_of_no_braces s h1 h2, loads_empty]

theorem append_ne_empty_left (a b : String) (h : 0 < a.length) : a ++ b ≠ "" := by
  intro he
  have hl := congrArg String.length he
  rw [String.length_append] at hl
  simp only [String.length_empty] at hl
  omega

theorem contentFallback_length (t : String) :
    (createContentBasedFallbackQuestions t).length = 3 := by
  unfold createContentBasedFallbackQuestions
  dsimp only
  cases List.filter (fun term => strContains (pyLower t) term) commonTechTerms <;> rfl

theorem parseQuestionsResponse_pos (t r : String) :
    1 ≤ (parseQuestionsResponse t r).length := by
  unfold parseQuestionsResponse
  cases htp : tryParseQuestions r with
  | none => rw [contentFallback_length]; omega
  | some qs =>
    cases qs with
    | nil => rw [contentFallback_length]; omega
    | cons q rest => simp

/-- Claim C1 (corrected), counterexample: with the ≥50-character transcript
below and the opaque structuring call returning the parseable text `{}`
(and the questions call raising), `process_tutorial` succeeds on the main
parse and returns a tutorial whose detailed summary is empty and which has
no ActionStep at all — so the claim's guarantee does not hold for every
behaviour of the model call. -/
theorem claim1_counterexample :
    50 ≤ ("this transcript is long enough to pass the validation" : String).length ∧
    (processTutorial (Except.ok "\x7b\x7d") (Except.error ())
      "this transcript is long enough to pass the validation" "english").summary.detailed_summary = "" ∧
    (processTutorial (Except.ok "\x7b\x7d") (Except.error ())
      "this transcript is long enough to pass the validation" "english").action_steps = [] ∧
    ¬ ((processTutorial (Except.ok "\x7b\x7d") (Except.error ())
        "this transcript is long enough to pass the validation" "english").summary.detailed_summary ≠ "" ∧
      1 ≤ (processTutorial (Except.ok "\x7b\x7d") (Except.error ())
        "this transcript is long enough to pass the validation" "english").action_steps.length) := by
  refine ⟨by decide, rfl, rfl, ?_⟩
  intro h
  exact h.1 rfl

/-- Claim C1 (amended): for every transcript of length at least 50 and every
behaviour of the questions call, if the structuring model call raises then
`process_tutorial` returns the fallback tutorial, whose summary title and
detailed summary are non-empty and which has at least one ActionStep and at
least one PracticeQuestion; and for every behaviour of both opaque calls the
result has at least one PracticeQuestion.  (The original claim also asserted
the title/summary/step guarantees for arbitrary returned text, which the
counterexample refutes.) -/
theorem claim1_exception_fallback :
    (∀ (t lang : String) (qb : Except Unit String), 50 ≤ t.length →
      (processTutorial (Except.error ()) qb t lang).summary.title ≠ "" ∧
      (processTutorial (Except.error ()) qb t lang).summary.detailed_summary ≠ "" ∧
      1 ≤ (processTutorial (Except.error ()) qb t lang).action_steps.length ∧
      1 ≤ (processTutorial (Except.error ()) qb t lang).practice_questions.length) ∧
    (∀ (mb qb : Except Unit String) (t lang : String),
      1 ≤ (processTutorial mb qb t lang).practice_questions.length) := by
  constructor
  · intro t lang qb _
    have hE : processTutorial (Except.error ()) qb t lang = createFallbackTutorial t lang := rfl
    rw [hE]
    have hd : (createFallbackTutorial t lang).summary.detailed_summary =
        "• Tutorial content was processed with limited AI analysis\n• Manual review may be needed for optimal results\n• Key concepts may need additional clarification" := rfl
    have hs : (createFallbackTutorial t lang).action_steps.length = 2 := rfl
    have hq : (createFallbackTutorial t lang).practice_questions.length = 2 := rfl
    refine ⟨?_, by rw [hd]; decide, by omega, by omega⟩
    show "Tutorial (" ++ toString (pySplitWs t).length ++ " words)" ≠ ""
    have hassoc : "Tutorial (" ++ toString (pySplitWs t).length ++ " words)" =
        "Tutorial (" ++ (toString (pySplitWs t).length ++ " words)") := by
      rw [String.append_assoc]
    rw [hassoc]
    exact append_ne_empty_left _ _ (by decide)
  · intro mb qb t lang
    cases mb with
    | error e =>
      have h2 : (processTutorial (Except.error e) qb t lang).practice_questions.length = 2 := rfl
      omega
    | ok resp =>
      cases hp : parseClaudeResponse resp lang with
      | error e =>
        have hE : processTutorial (Except.ok resp) qb t lang = createFallbackTutorial t lang := by
          unfold processTutorial; dsimp only; rw [hp]
        rw [hE]
        have h2 : (createFallbackTutorial t lang).practice_questions.length = 2 := rfl
        omega
      | ok tut =>
        have hE : (processTutorial (Except.ok resp) qb t lang).practice_questions =
            (match qb with
              | Except.error _ => createContentBasedFallbackQuestions t
              | Except.ok qresp => parseQuestionsResponse t qresp) := by
          unfold processTutorial; dsimp only; rw [hp]
        rw [hE]
        cases qb with
        | error e => rw [contentFallback_length]; omega
        | ok qresp => exact parseQuestionsResponse_pos t qresp

/-- Claim C1, witness for the amended theorem at a concrete input. -/
theorem claim1_witness :
    (processTutorial (Except.error ()) (Except.error ())
      "Docker containers let you package an application with its dependencies."
      "english").summary.title ≠ "" ∧
    1 ≤ (processTutorial (Except.error ()) (Except.error ())
      "Docker containers let you package an application with its dependencies."
      "english").practice_questions.length :=
  ⟨(claim1_exception_fallback.1
      "Docker containers let you package an application with its dependencies."
      "english" (Except.error ()) (by decide)).1,
    claim1_exception_fallback.2 (Except.error ()) (Except.error ())
      "Docker containers let you package an application with its dependencies." "english"⟩

/-- Claim C2 (confirmed): for every transcript, target language and
questions-call behaviour, if the structuring response contains no brace
characters at all, `process_tutorial` returns the deterministic fallback
tutorial: title exactly `Tutorial (<n> words)` with `<n>` the
whitespace-split word count of the transcript, exactly 2 generic
ActionSteps, exactly 2 generic PracticeQuestions, and the target language
passed through.  Determinism/idempotence is definitional here: the
embedding is a pure function of its inputs, and no field of the fallback
record depends on wall-clock time (`processing_time` is fixed at 0 by the
service and only overwritten by the endpoint). -/
theorem claim2_no_braces_fallback (t lang resp : String) (qb : Except Unit String)
    (h1 : ∀ x ∈ resp.toList, x ≠ lbrace) (h2 : ∀ x ∈ resp.toList, x ≠ rbrace) :
    processTutorial (Except.ok resp) qb t lang = createFallbackTutorial t lang ∧
    (processTutorial (Except.ok resp) qb t lang).summary.title =
      "Tutorial (" ++ toString (pySplitWs t).length ++ " words)" ∧
    (processTutorial (Except.ok resp) qb t lang).action_steps.length = 2 ∧
    (processTutorial (Except.ok resp) qb t lang).practice_questions.length = 2 ∧
    (processTutorial (Except.ok resp) qb t lang).target_language = lang := by
  have hmain : processTutorial (Except.ok resp) qb t lang = createFallbackTutorial t lang := by
    unfold processTutorial
    dsimp only
    rw [parseClaudeResponse_of_no_braces resp lang h1 h2]
  refine ⟨hmain, ?_, ?_, ?_, ?_⟩ <;> rw [hmain] <;> rfl

/-- Claim C2, witness: the end-to-end scenario of the spec, with the model
stubbed to return brace-free text. -/
theorem claim2_witness :
    processTutorial (Except.ok "Sorry, I could not produce structured output.") (Except.error ())
      "Docker containers let you package an application with its dependencies." "english" =
    createFallbackTutorial
      "Docker containers let you package an application with its dependencies." "english" ∧
    (processTutorial (Except.ok "Sorry, I could not produce structured output.") (Except.error ())
      "Docker containers let you package an application with its dependencies."
      "english").summary.title = "Tutorial (10 words)" := by
  have h := claim2_no_braces_fallback
    "Docker containers let you package an application with its dependencies." "english"
    "Sorry, I could not produce structured output." (Except.error ())
    (by decide) (by decide)
  exact ⟨h.1, by rw [h.2.1]; decide⟩

/-- Claim C3 (corrected), counterexample: the transcript below contains the
vocabulary term `docker` (case-folded), the questions response parses to
nothing, yet no fallback question has topic `Docker`: the synthesis only
uses the FIRST vocabulary term found (here `python`), not every contained
term. -/
theorem claim3_counterexample :
    strContains (pyLower "we learn python and docker in this tutorial") "docker" = true ∧
    ∀ q ∈ parseQuestionsResponse "we learn python and docker in this tutorial" "no json here at all",
      q.topic ≠ "Docker" := by
  exact ⟨by decide, by decide⟩

/-- Claim C3 (amended): whenever the questions-path parse fails or yields an
empty list, the decoder returns exactly 3 fallback questions — never an
empty list — one of kind short-answer, one true/false, one multiple-choice;
and when the case-folded transcript contains vocabulary terms, at least one
returned question's topic equals the Python title-casing of the FIRST such
term in the fixed vocabulary order. -/
theorem claim3_fallback_questions (t resp : String)
    (h : tryParseQuestions resp = none ∨ tryParseQuestions resp = some []) :
    (parseQuestionsResponse t resp).length = 3 ∧
    parseQuestionsResponse t resp ≠ [] ∧
    (∃ q ∈ parseQuestionsResponse t resp, q.question_type = "short_answer") ∧
    (∃ q ∈ parseQuestionsResponse t resp, q.question_type = "true_false") ∧
    (∃ q ∈ parseQuestionsResponse t resp, q.question_type = "multiple_choice") ∧
    (∀ term, (List.filter (fun x => strContains (pyLower t) x) commonTechTerms).head? = some term →
      ∃ q ∈ parseQuestionsResponse t resp, q.topic = pyTitle term) := by
  have hE : parseQuestionsResponse t resp = createContentBasedFallbackQuestions t := by
    unfold parseQuestionsResponse
    rcases h with h | h <;> rw [h]
  rw [hE]
  unfold createContentBasedFallbackQuestions
  dsimp only
  cases hf : List.filter (fun x => strContains (pyLower t) x) commonTechTerms with
  | nil =>
    refine ⟨rfl, by simp, ?_, ?_, ?_, ?_⟩
    · exact ⟨_, List.mem_cons_self _ _, rfl⟩
    · exact ⟨_, List.mem_cons_of_mem _ (List.mem_cons_self _ _), rfl⟩
    · exact ⟨_, List.mem_cons_of_mem _ (List.mem_cons_of_mem _ (List.mem_cons_self _ _)), rfl⟩
    · intro term hterm
      simp at hterm
  | cons m tail =>
    refine ⟨rfl, by simp, ?_, ?_, ?_, ?_⟩
    · exact ⟨_, List.mem_cons_self _ _, rfl⟩
    · exact ⟨_, List.mem_cons_of_mem _ (List.mem_cons_self _ _), rfl⟩
    · exact ⟨_, List.mem_cons_of_mem _ (List.mem_cons_of_mem _ (List.mem_cons_self _ _)), rfl⟩
    · intro term hterm
      simp only [List.head?] at hterm
      cases hterm
      exact ⟨_, List.mem_cons_self _ _, rfl⟩

/-- Claim C3, witness for the amended theorem at a concrete failing response
and a transcript whose first contained vocabulary term is `docker`. -/
theorem claim3_witness :
    (parseQuestionsResponse "we learn docker basics" "garbage").length = 3 ∧
    ∃ q ∈ parseQuestionsResponse "we learn docker basics" "garbage", q.topic = pyTitle "docker" :=
  ⟨(claim3_fallback_questions "we learn docker basics" "garbage" (Or.inl (by decide))).1,
    (claim3_fallback_questions "we learn docker basics" "garbage"
      (Or.inl (by decide))).2.2.2.2.2 "docker" (by decide)⟩

theorem subFenceF_nil : ∀ f, subFenceF f [] = []
  | 0 => rfl
  | Nat.succ _ => rfl

theorem subFenceF_length_le : ∀ (f : Nat) (l : List Char), (subFenceF f l).length ≤ l.length := by
  intro f
  induction f with
  | zero => intro l; exact le_rfl
  | succ f ih =>
    intro l
    match l with
    | [] => simp [subFenceF]
    | [c1] =>
      simp only [subFenceF, List.length_cons]
      have := ih ([] : List Char)
      simp at this
      simp [this]
    | [c1, c2] =>
      simp only [subFenceF, List.length_cons]
      have := ih [c2]
      simp only [List.length_cons, List.length_nil] at this ⊢
      omega
    | c1 :: c2 :: c3 :: rest =>
      simp only [subFenceF]
      split
      · have h1 : List.Sublist (rest.dropWhile pyIsSpace) rest := List.dropWhile_sublist pyIsSpace
        have h2 := h1.length_le
        have h3 := ih (rest.dropWhile pyIsSpace)
        simp only [List.length_cons]
        omega
      · have h3 := ih (c2 :: c3 :: rest)
        simp only [List.length_cons] at h3 ⊢
        omega

theorem hasTriple_short : ∀ (l : List Char), l.length ≤ 2 → hasTriple l = false := by
  intro l h
  match l with
  | [] => rfl
  | [c1] => rfl
  | [c1, c2] => rfl
  | c1 :: c2 :: c3 :: rest => simp [List.length_cons] at h

theorem subFenceF_tick :
    ∀ (f : Nat) (l t : List Char), subFenceF f l = btick :: t → ∃ r, l = btick :: r := by
  intro f
  cases f with
  | zero => intro l t h; exact ⟨t, h⟩
  | succ f =>
    intro l t h
    match l with
    | [] => simp [subFenceF] at h
    | [c1] =>
      simp only [subFenceF] at h
      rw [List.cons.injEq] at h
      exact ⟨[], by rw [h.1]⟩
    | [c1, c2] =>
      simp only [subFenceF] at h
      rw [List.cons.injEq] at h
      exact ⟨[c2], by rw [h.1]⟩
    | c1 :: c2 :: c3 :: rest =>
      simp only [subFenceF] at h
      by_cases hc : (c1 == btick && c2 == btick && c3 == btick) = true
      · have h1 : c1 = btick := by
          have := hc
          simp only [Bool.and_eq_true, beq_iff_eq] at this
          exact this.1.1
        exact ⟨c2 :: c3 :: rest, by rw [h1]⟩
      · rw [if_neg hc] at h
        rw [List.cons.injEq] at h
        exact ⟨c2 :: c3 :: rest, by rw [h.1]⟩

theorem subFenceF_tick_tick :
    ∀ (f : Nat) (l t : List Char), subFenceF f l = btick :: btick :: t →
      ∃ r, l = btick :: btick :: r := by
  intro f
  cases f with
  | zero => intro l t h; exact ⟨t, h⟩
  | succ f =>
    intro l t h
    match l with
    | [] => simp [subFenceF] at h
    | [c1] =>
      simp only [subFenceF] at h
      rw [List.cons.injEq] at h
      rw [subFenceF_nil] at h
      exact absurd h.2 (by simp)
    | [c1, c2] =>
      simp only [subFenceF] at h
      rw [List.cons.injEq] at h
      obtain ⟨r, hr⟩ := subFenceF_tick f [c2] t h.2
      rw [List.cons.injEq] at hr
      exact ⟨[], by rw [h.1, hr.1]⟩
    | c1 :: c2 :: c3 :: rest =>
      simp only [subFenceF] at h
      by_cases hc : (c1 == btick && c2 == btick && c3 == btick) = true
      · have h1 : c1 = btick ∧ c2 = btick := by
          have := hc
          simp only [Bool.and_eq_true, beq_iff_eq] at this
          exact ⟨this.1.1, this.1.2⟩
        exact ⟨c3 :: rest, by rw [h1.1, h1.2]⟩
      · rw [if_neg hc] at h
        rw [List.cons.injEq] at h
        obtain ⟨r, hr⟩ := subFenceF_tick f (c2 :: c3 :: rest) t h.2
        rw [List.cons.injEq] at hr
        exact ⟨c3 :: rest, by rw [h.1, hr.1]⟩

theorem hasTriple_subFenceF :
    ∀ (f : Nat) (l : List Char), l.length ≤ f → hasTriple (subFenceF f l) = false := by
  intro f
  induction f with
  | zero =>
    intro l h
    have hl : l = [] := by
      cases l with
      | nil => rfl
      | cons c r => simp at h
    rw [hl]; rfl
  | succ f ih =>
    intro l h
    match l with
    | [] => rw [subFenceF_nil]; rfl
    | [c1] =>
      simp only [subFenceF]
      rw [subFenceF_nil]
      rfl
    | [c1, c2] =>
      simp only [subFenceF]
      apply hasTriple_short
      have := subFenceF_length_le f [c2]
      simp only [List.length_cons, List.length_nil] at this ⊢
      omega
    | c1 :: c2 :: c3 :: rest =>
      simp only [List.length_cons] at h
      simp only [subFenceF]
      by_cases hc : (c1 == btick && c2 == btick && c3 == btick) = true
      · rw [if_pos hc]
        apply ih
        have h1 : List.Sublist (rest.dropWhile pyIsSpace) rest := List.dropWhile_sublist pyIsSpace
        have h2 := h1.length_le
        omega
      · rw [if_neg hc]
        have hrec : hasTriple (subFenceF f (c2 :: c3 :: rest)) = false := by
          apply ih
          simp only [List.length_cons]
          omega
        rcases hs : subFenceF f (c2 :: c3 :: rest) with _ | ⟨d1, _ | ⟨d2, tl⟩⟩
        · rfl
        · rfl
        · rw [hs] at hrec
          rw [hasTriple]
          rw [hrec, Bool.or_false]
          by_cases h3 : (c1 == btick && d1 == btick && d2 == btick) = true
          · exfalso
            have h4 : c1 = btick ∧ d1 = btick ∧ d2 = btick := by
              have := h3
              simp only [Bool.and_eq_true, beq_iff_eq] at this
              exact ⟨this.1.1, this.1.2, this.2⟩
            rw [h4.2.1, h4.2.2] at hs
            obtain ⟨r, hr⟩ := subFenceF_tick_tick f (c2 :: c3 :: rest) tl hs
            rw [List.cons.injEq] at hr
            have hr2 := hr.2
            rw [List.cons.injEq] at hr2
            apply hc
            simp only [Bool.and_eq_true, beq_iff_eq]
            exact ⟨⟨h4.1, hr.1⟩, hr2.1⟩
          · simp only [Bool.not_eq_true] at h3
            exact h3

/-- After the second regex pass, no fenced code-block marker (three
consecutive backticks) remains, whatever the first pass produced. -/
theorem hasTriple_subFence (l : List Char) : hasTriple (subFence l) = false :=
  hasTriple_subFenceF l.length l le_rfl

theorem mem_splitOnChar (sep : Char) :
    ∀ (l g : List Char), g ∈ splitOnChar sep l → ∀ c ∈ g, c ∈ l := by
  intro l
  induction l with
  | nil =>
    intro g hg c hc
    simp only [splitOnChar] at hg
    rw [List.mem_singleton] at hg
    rw [hg] at hc
    simp at hc
  | cons x rest ih =>
    intro g hg c hc
    simp only [splitOnChar] at hg
    rcases heq : splitOnChar sep rest with _ | ⟨g0, gs⟩
    · rw [heq] at hg
      rw [List.mem_singleton] at hg
      rw [hg] at hc
      simp at hc
    · rw [heq] at hg
      dsimp only at hg
      by_cases hx : (x == sep) = true
      · rw [if_pos hx] at hg
        rcases List.mem_cons.mp hg with hg1 | hg2
        · rw [hg1] at hc; simp at hc
        · have : c ∈ rest := ih g (by rw [heq]; exact hg2) c hc
          exact List.mem_cons_of_mem x this
      · rw [if_neg hx] at hg
        rcases List.mem_cons.mp hg with hg1 | hg2
        · rw [hg1] at hc
          rcases List.mem_cons.mp hc with hc1 | hc2
          · rw [hc1]; exact List.mem_cons_self x rest
          · have : c ∈ rest := ih g0 (by rw [heq]; exact List.mem_cons_self g0 gs) c hc2
            exact List.mem_cons_of_mem x this
        · have : c ∈ rest := ih g (by rw [heq]; exact List.mem_cons_of_mem g0 hg2) c hc
          exact List.mem_cons_of_mem x this

theorem mem_joinChar (sep : Char) :
    ∀ (gs : List (List Char)) (c : Char), c ∈ joinChar sep gs →
      c = sep ∨ ∃ g ∈ gs, c ∈ g := by
  intro gs
  induction gs with
  | nil => intro c hc; simp [joinChar] at hc
  | cons g gs ih =>
    intro c hc
    cases gs with
    | nil =>
      right
      exact ⟨g, List.mem_cons_self g [], by simpa [joinChar] using hc⟩
    | cons g2 gss =>
      simp only [joinChar] at hc
      rcases List.mem_append.mp hc with h1 | h2
      · exact Or.inr ⟨g, List.mem_cons_self g _, h1⟩
      · rcases List.mem_cons.mp h2 with h3 | h4
        · exact Or.inl h3
        · rcases ih c h4 with h5 | ⟨g', hg', hc'⟩
          · exact Or.inl h5
          · exact Or.inr ⟨g', List.mem_cons_of_mem g hg', hc'⟩

theorem mem_escapeLine (l : List Char) (c : Char) (h : c ∈ escapeLine l) :
    c ∈ l ∨ c = '\\' ∨ c = 'r' ∨ c = 't' := by
  unfold escapeLine at h
  rcases List.mem_flatMap.mp h with ⟨a, ha, hc⟩
  by_cases h1 : (a == crChar) = true
  · rw [if_pos h1] at hc
    rcases List.mem_cons.mp hc with h2 | h3
    · exact Or.inr (Or.inl h2)
    · rw [List.mem_singleton] at h3
      exact Or.inr (Or.inr (Or.inl h3))
  · rw [if_neg h1] at hc
    by_cases h2 : (a == '\t') = true
    · rw [if_pos h2] at hc
      rcases List.mem_cons.mp hc with h3 | h4
      · exact Or.inr (Or.inl h3)
      · rw [List.mem_singleton] at h4
        exact Or.inr (Or.inr (Or.inr h4))
    · rw [if_neg h2] at hc
      rw [List.mem_singleton] at hc
      rw [hc]
      exact Or.inl ha

theorem mem_removeCtl_low (l : List Char) (c : Char) (h : c ∈ removeCtl l)
    (hlow : c.toNat < 32) : c.toNat = 9 ∨ c.toNat = 10 ∨ c.toNat = 13 := by
  unfold removeCtl at h
  have hp := List.of_mem_filter h
  rw [Bool.not_eq_eq_eq_not, Bool.not_true] at hp
  simp [isCtlRemoved] at hp
  omega

theorem mem_pyStripL (l : List Char) (c : Char) (h : c ∈ pyStripL l) : c ∈ l := by
  unfold pyStripL at h
  rw [List.mem_reverse] at h
  have h2 := (List.dropWhile_sublist pyIsSpace).subset h
  rw [List.mem_reverse] at h2
  exact (List.dropWhile_sublist pyIsSpace).subset h2

theorem cleanJson_ctl (s : String) (c : Char) (h : c ∈ (cleanJsonResponse s).toList)
    (hlow : c.toNat < 32) : c.toNat = 9 ∨ c.toNat = 10 ∨ c.toNat = 13 := by
  unfold cleanJsonResponse at h
  dsimp only at h
  rw [toList_mk] at h
  have h1 := mem_pyStripL _ _ h
  rcases mem_joinChar '\n' _ c h1 with h2 | ⟨g, hg, hcg⟩
  · rw [h2]; right; left; rfl
  · rcases List.mem_filterMap.mp hg with ⟨ln, hln, hf⟩
    by_cases he : (pyStripL ln).isEmpty = true
    · rw [if_pos he] at hf; exact absurd hf (by simp)
    · rw [if_neg he] at hf
      by_cases hstruct : lineStructural ln = true
      · rw [if_pos hstruct] at hf
        rw [Option.some.injEq] at hf
        rw [← hf] at hcg
        have : c ∈ removeCtl (subFence (subFenceJson s.toList)) :=
          mem_splitOnChar '\n' _ ln hln c hcg
        exact mem_removeCtl_low _ c this hlow
      · rw [if_neg hstruct] at hf
        rw [Option.some.injEq] at hf
        rw [← hf] at hcg
        rcases mem_escapeLine ln c hcg with h3 | h3 | h3 | h3
        · have : c ∈ removeCtl (subFence (subFenceJson s.toList)) :=
            mem_splitOnChar '\n' _ ln hln c h3
          exact mem_removeCtl_low _ c this hlow
        · rw [h3] at hlow; exact absurd hlow (by decide)
        · rw [h3] at hlow; exact absurd hlow (by decide)
        · rw [h3] at hlow; exact absurd hlow (by decide)

/-- Claim C4 (corrected), counterexample: a carriage return (code point
0x0D, in the C0 range and neither newline nor tab) inside a structural line
survives `_clean_json_response` unchanged — the control-character class of
line 410 skips `\x0D`. -/
theorem claim4_counterexample :
    crChar ∈ (cleanJsonResponse "\x7b\x0Dx\x7d").toList ∧
    crChar.toNat < 32 ∧ crChar ≠ '\n' ∧ crChar ≠ '\t' := by
  refine ⟨by decide, by decide, by decide, by decide⟩

/-- Claim C4 (amended): `_clean_json_response` removes all fenced
code-block markers at its marker-removal stage (after the two regex passes
no three consecutive backticks remain), and no character with code point in
0x00–0x1F other than newline (0x0A), tab (0x09) and carriage return (0x0D)
remains in its output.  Carriage return is the one C0 character besides
newline/tab that the filter keeps (it is escaped only on non-structural
lines), which corrects the original claim's \"except newline and tab\". -/
theorem claim4_cleanup (s : String) :
    hasTriple (subFence (subFenceJson s.toList)) = false ∧
    ∀ c ∈ (cleanJsonResponse s).toList, c.toNat < 32 →
      c.toNat = 9 ∨ c.toNat = 10 ∨ c.toNat = 13 :=
  ⟨hasTriple_subFence _, fun c hc hlow => cleanJson_ctl s c hc hlow⟩

/-- Claim C4, witness: the amended theorem applied at concrete inputs, with
the membership and code-point hypotheses discharged on a concrete tab that
survives cleanup inside a structural line. -/
theorem claim4_witness :
    hasTriple (subFence (subFenceJson ("x" : String).toList)) = false ∧
    ('\t'.toNat = 9 ∨ '\t'.toNat = 10 ∨ '\t'.toNat = 13) :=
  ⟨(claim4_cleanup "x").1, (claim4_cleanup "a:\tb").2 '\t' (by decide) (by decide)⟩

/-- Claim C5 (corrected), counterexample: in the chat path a raised model
call is NOT converted to a fallback value — `chat_about_tutorial` re-raises
it (line 81) and the `/api/chat` endpoint surfaces it to the caller as an
HTTP 500 whose detail wraps the exception text twice. -/
theorem claim5_counterexample :
    chatAboutTutorial (Except.error "Connection timed out") 0 =
      Except.error "Chat processing failed: Connection timed out" ∧
    chatEndpoint (Except.error "Connection timed out") 0 =
      Except.error (500, "Chat processing failed: Chat processing failed: Connection timed out") :=
  ⟨rfl, rfl⟩

/-- Claim C5 (amended): a raised model call in the structuring path is
absorbed into the fallback tutorial; a raised questions call is absorbed
into the fallback tutorial (if the structuring parse also failed) or into
the content-based fallback questions; but the chat-path failure is
re-raised as `Chat processing failed: ...` rather than converted to a
fallback value. -/
theorem claim5_error_handling :
    (∀ (t lang : String) (qb : Except Unit String),
      processTutorial (Except.error ()) qb t lang = createFallbackTutorial t lang) ∧
    (∀ (resp t lang : String),
      processTutorial (Except.ok resp) (Except.error ()) t lang = createFallbackTutorial t lang ∨
      (processTutorial (Except.ok resp) (Except.error ()) t lang).practice_questions =
        createContentBasedFallbackQuestions t) ∧
    (∀ (e : String) (now : Nat),
      chatAboutTutorial (Except.error e) now = Except.error ("Chat processing failed: " ++ e)) := by
  refine ⟨fun t lang qb => rfl, ?_, fun e now => rfl⟩
  intro resp t lang
  cases hp : parseClaudeResponse resp lang with
  | error e =>
    left
    unfold processTutorial; dsimp only; rw [hp]
  | ok tut =>
    right
    unfold processTutorial; dsimp only; rw [hp]

set_option maxRecDepth 40000 in
/-- Claim C6 (corrected), counterexample: two histories that agree on the
most recent user question (`q`) and on the assistant answer that follows it
(`ans`) yield different prompts: the code pairs the last user message with
the nearest assistant message OLDER than it, so the first history (exactly
one completed exchange) contributes no context while the second contributes
`olda`, an older turn. -/
theorem claim6_counterexample :
    buildChatPrompt ⟨"T", "S", [], [], "english", "tr"⟩ "What is X?"
        [⟨some "user", some "q"⟩, ⟨some "assistant", some "ans"⟩] ≠
      buildChatPrompt ⟨"T", "S", [], [], "english", "tr"⟩ "What is X?"
        [⟨some "user", some "old"⟩, ⟨some "assistant", some "olda"⟩,
          ⟨some "user", some "q"⟩, ⟨some "assistant", some "ans"⟩] := by
  decide

theorem findPair_append :
    ∀ (l l2 : List ChatMsg) (acc x : Option String) (a : String),
      findPair l acc = (x, some a) → findPair (l ++ l2) acc = (x, some a) := by
  intro l
  induction l with
  | nil =>
    intro l2 acc x a h
    simp only [findPair, Prod.mk.injEq] at h
    exact absurd h.2 (by simp)
  | cons m rest ih =>
    intro l2 acc x a h
    simp only [findPair, List.cons_append] at h ⊢
    by_cases h1 : (m.role == some "user" && acc.isNone) = true
    · rw [if_pos h1] at h ⊢
      exact ih l2 _ x a h
    · rw [if_neg h1] at h ⊢
      by_cases h2 : (m.role == some "assistant" && (acc.getD "" != "")) = true
      · rw [if_pos h2] at h ⊢
        exact h
      · rw [if_neg h2] at h ⊢
        exact ih l2 acc x a h

/-- Claim C6 (amended): the rendered chat prompt depends on the tutorial
data, the new user message, the most recent user message of the history
and the nearest assistant message OLDER than that user message (truncated
to 200 characters) — not the assistant answer following it.  In particular,
once the backward scan finds such a (truthy) pair inside a history of
length ≥ 2, prepending arbitrarily many older turns leaves the prompt
unchanged. -/
theorem claim6_prompt_context (d : ChatTutorialData) (msg : String)
    (older h : List ChatMsg) (u a : String)
    (hlen : 2 ≤ h.length) (hpair : findPair h.reverse none = (some u, some a)) :
    buildChatPrompt d msg (older ++ h) = buildChatPrompt d msg h := by
  unfold buildChatPrompt
  have e1 : lastContextOf (older ++ h) = lastContextOf h := by
    unfold lastContextOf
    have hlen2 : 2 ≤ (older ++ h).length := by rw [List.length_append]; omega
    rw [if_pos hlen2, if_pos hlen]
    rw [List.reverse_append]
    rw [findPair_append h.reverse older.reverse none (some u) a hpair]
    rw [hpair]
  rw [e1]

/-- Claim C6, witness: prepending an older turn to a history whose scan
already found the pair (`q`, `a0`) leaves the prompt unchanged. -/
theorem claim6_witness :
    buildChatPrompt ⟨"T", "S", [], [], "english", "tr"⟩ "m"
        ([⟨some "user", some "ancient"⟩] ++
          [⟨some "assistant", some "a0"⟩, ⟨some "user", some "q"⟩,
            ⟨some "assistant", some "a1"⟩]) =
      buildChatPrompt ⟨"T", "S", [], [], "english", "tr"⟩ "m"
        [⟨some "assistant", some "a0"⟩, ⟨some "user", some "q"⟩,
          ⟨some "assistant", some "a1"⟩] :=
  claim6_prompt_context ⟨"T", "S", [], [], "english", "tr"⟩ "m"
    [⟨some "user", some "ancient"⟩]
    [⟨some "assistant", some "a0"⟩, ⟨some "user", some "q"⟩, ⟨some "assistant", some "a1"⟩]
    "q" "a0" (by decide) (by decide)

/-- Claim C7 (confirmed): decoding a questions payload in which a
short-answer question's `options` field is absent or null yields a
`PracticeQuestion` with `options = none` — not an empty list and not a
placeholder — and re-encoding that record per the schema emits
`options = null` (absent) again. -/
theorem claim7_options_roundtrip (qid : Int) (q ca ex df tp : String) :
    parseQuestionsData (Json.obj [("questions", Json.arr
        [Json.obj [("question_id", Json.int qid), ("question", Json.str q),
          ("question_type", Json.str "short_answer"),
          ("correct_answer", Json.str ca), ("explanation", Json.str ex),
          ("difficulty", Json.str df), ("topic", Json.str tp)]])]) =
      Except.ok [⟨qid, q, "short_answer", none, ca, ex, df, tp⟩] ∧
    parseQuestionsData (Json.obj [("questions", Json.arr
        [Json.obj [("question_id", Json.int qid), ("question", Json.str q),
          ("question_type", Json.str "short_answer"), ("options", Json.null),
          ("correct_answer", Json.str ca), ("explanation", Json.str ex),
          ("difficulty", Json.str df), ("topic", Json.str tp)]])]) =
      Except.ok [⟨qid, q, "short_answer", none, ca, ex, df, tp⟩] ∧
    jGet (encodePracticeQuestionFields ⟨qid, q, "short_answer", none, ca, ex, df, tp⟩)
        "options" = some Json.null := by
  exact ⟨rfl, rfl, rfl⟩

/-- Claim C10 (confirmed): every falsy decoded `options` value — null, the
empty list, the empty string — collapses to an absent `options`, whatever
the question kind (including `multiple_choice` and `true_false`), making an
explicitly empty list indistinguishable from an absent field. -/
theorem claim10_falsy_options (qid : Int) (q qty ca ex df tp : String) (fal : Json)
    (hfal : fal = Json.null ∨ fal = Json.arr [] ∨ fal = Json.str "") :
    parseQuestion (Json.obj [("question_id", Json.int qid), ("question", Json.str q),
      ("question_type", Json.str qty), ("options", fal),
      ("correct_answer", Json.str ca), ("explanation", Json.str ex),
      ("difficulty", Json.str df), ("topic", Json.str tp)]) =
    Except.ok ⟨qid, q, qty, none, ca, ex, df, tp⟩ := by
  rcases hfal with h | h | h <;> subst h <;> rfl

/-- Claim C10, witness: an explicitly empty options list on a
multiple-choice question decodes to absent options. -/
theorem claim10_witness :
    parseQuestion (Json.obj [("question_id", Json.int 1), ("question", Json.str "Q"),
      ("question_type", Json.str "multiple_choice"), ("options", Json.arr []),
      ("correct_answer", Json.str "A"), ("explanation", Json.str "E"),
      ("difficulty", Json.str "easy"), ("topic", Json.str "T")]) =
    Except.ok ⟨1, "Q", "multiple_choice", none, "A", "E", "easy", "T"⟩ :=
  claim10_falsy_options 1 "Q" "multiple_choice" "A" "E" "easy" "T" (Json.arr [])
    (Or.inr (Or.inl rfl))

/-- Claim C8 (corrected), counterexample: a `detailed_summary` that arrives
as a single bullet blob is stored UNCHANGED as that single string — it is
not split into an ordered sequence (the schema field is one string); and a
`detailed_summary` arriving as a LIST is joined into the very same blob:
the coercion direction is the reverse of the claim's. -/
theorem claim8_counterexample :
    (parseClaudeResponse "\x7b\"detailed_summary\": \"• A\\n• B\"\x7d" "english").toOption.map
        (fun r => r.summary.detailed_summary) = some "• A\n• B" ∧
    (parseClaudeResponse "\x7b\"detailed_summary\": [\"A\", \"B\"]\x7d" "english").toOption.map
        (fun r => r.summary.detailed_summary) = some "• A\n• B" := by
  exact ⟨rfl, rfl⟩

/-- Claim C8 (amended): in the structuring path, for every successfully
located and parsed payload: a `detailed_summary` arriving as a LIST is
joined by `• `-prefixed, newline-separated bullets into the single stored
string (a blob stays a blob — the spec's splitting direction is reversed);
one arriving as an object is stringified rather than rejected; and missing
optional fields take the documented defaults — duration becomes none,
difficulty becomes `Intermediate`, key topics become the empty sequence. -/
theorem claim8_coercions (d : List (String × Json)) (lang : String)
    (r : ProcessedTutorial) (hok : parseClaudeData d lang = Except.ok r) :
    (∀ l, jGet d "detailed_summary" = some (Json.arr l) →
      r.summary.detailed_summary =
        String.intercalate "\n" (l.map fun item => "• " ++ pyStr item)) ∧
    (∀ kv, jGet d "detailed_summary" = some (Json.obj kv) →
      r.summary.detailed_summary = pyStr (Json.obj kv)) ∧
    (∀ s, jGet d "detailed_summary" = some (Json.str s) →
      r.summary.detailed_summary = s) ∧
    (jGet d "duration" = none → r.summary.duration = none) ∧
    (jGet d "difficulty_level" = none → r.summary.difficulty_level = "Intermediate") ∧
    (jGet d "key_topics" = none → r.summary.key_topics = []) := by
  unfold parseClaudeData at hok
  cases h1 : coerceOptStr (jGet d "duration") with
  | error e1 => rw [h1] at hok; simp at hok
  | ok dur =>
    cases h2 : coerceTopics (jGet d "key_topics") with
    | error e2 => rw [h1, h2] at hok; simp at hok
    | ok topics =>
      cases h3 : parseSteps (jGet d "action_steps") with
      | error e3 => rw [h1, h2, h3] at hok; simp at hok
      | ok steps =>
        rw [h1, h2, h3] at hok
        dsimp only at hok
        rw [Except.ok.injEq] at hok
        subst hok
        refine ⟨?_, ?_, ?_, ?_, ?_, ?_⟩
        · intro l hl
          show coerceDetailed (jGet d "detailed_summary") = _
          rw [hl]
          rfl
        · intro kv hkv
          show coerceDetailed (jGet d "detailed_summary") = _
          rw [hkv]
          rfl
        · intro s hs
          show coerceDetailed (jGet d "detailed_summary") = _
          rw [hs]
          rfl
        · intro hnone
          rw [hnone] at h1
          simp only [coerceOptStr, Except.ok.injEq] at h1
          show dur = none
          subst h1
          rfl
        · intro hnone
          show pyStr ((jGet d "difficulty_level").getD (Json.str "Intermediate")) = "Intermediate"
          rw [hnone]
          rfl
        · intro hnone
          rw [hnone] at h2
          simp only [coerceTopics, Except.ok.injEq] at h2
          show topics = []
          subst h2
          rfl

/-- Claim C8, witness: the amended theorem applied to a concrete payload
whose `detailed_summary` is the list `["A", "B"]` and whose optional fields
are missing. -/
theorem claim8_witness :
    ∃ r, parseClaudeData [("detailed_summary", Json.arr [Json.str "A", Json.str "B"])]
        "english" = Except.ok r ∧
      r.summary.detailed_summary =
        String.intercalate "\n" ([Json.str "A", Json.str "B"].map fun item => "• " ++ pyStr item) ∧
      r.summary.duration = none ∧ r.summary.difficulty_level = "Intermediate" ∧
      r.summary.key_topics = [] := by
  refine ⟨_, rfl, ?_, ?_, ?_, ?_⟩
  · exact (claim8_coercions [("detailed_summary", Json.arr [Json.str "A", Json.str "B"])]
      "english" _ rfl).1 [Json.str "A", Json.str "B"] rfl
  · exact (claim8_coercions [("detailed_summary", Json.arr [Json.str "A", Json.str "B"])]
      "english" _ rfl).2.2.2.1 rfl
  · exact (claim8_coercions [("detailed_summary", Json.arr [Json.str "A", Json.str "B"])]
      "english" _ rfl).2.2.2.2.1 rfl
  · exact (claim8_coercions [("detailed_summary", Json.arr [Json.str "A", Json.str "B"])]
      "english" _ rfl).2.2.2.2.2 rfl

/-- Claim C9 (corrected), counterexample: a 61-character transcript made of
one letter and 60 spaces is non-empty and longer than 50 characters, yet
`validate_transcript` rejects it — validation measures the
whitespace-STRIPPED length, not the raw length. -/
theorem claim9_counterexample :
    validateTranscript "x                                                            " = false ∧
    ("x                                                            " : String) ≠ "" ∧
    50 ≤ ("x                                                            " : String).length := by
  exact ⟨by decide, by decide, by decide⟩

/-- Claim C9 (amended): `validate_transcript` accepts a transcript exactly
when its whitespace-stripped length is at least 50 (the empty string is
subsumed: its stripped length is 0); rejected input is surfaced by the
endpoint as an explicit HTTP 400 rejection with a descriptive reason, never
converted into a fallback record. -/
theorem claim9_validation :
    (∀ t : String, validateTranscript t = true ↔ 50 ≤ (pyStrip t).length) ∧
    (∀ (t lang : String) (mb qb : Except Unit String) (elapsed : Nat),
      validateTranscript t = false →
        processEndpoint mb qb t lang elapsed =
          Except.error (400, "Transcript is too short or invalid")) := by
  constructor
  · intro t
    unfold validateTranscript
    by_cases h : (t == "") = true
    · have ht : t = "" := eq_of_beq h
      subst ht
      decide
    · by_cases h2 : (pyStrip t).length < 50
      · simp [h, h2]
      · simp [h, h2]
        omega
  · intro t lang mb qb elapsed hval
    unfold processEndpoint
    rw [hval]
    rfl

/-- Claim C9, witness: a too-short transcript is rejected by the endpoint
with the descriptive 400 error. -/
theorem claim9_witness :
    validateTranscript "short" = false ∧
    processEndpoint (Except.error ()) (Except.error ()) "short" "english" 0 =
      Except.error (400, "Transcript is too short or invalid") :=
  ⟨by decide,
    claim9_validation.2 "short" "english" (Except.error ()) (Except.error ()) 0 (by decide)⟩
